import Mathlib

/-!
Verification of the chapter-lifecycle state machine of the church-magazine
editorial system.  The definitions below are a shallow embedding of the
mutation handlers found in the repository: the writer page (handleSave /
handleSubmit, in both its current and its earlier revision), the editor page
(handleSave / handleReview in the current revision, handleSave / handleConfirm
in the earlier revision), and the admin page (handleConfirm, handleUnconfirm,
handleDeleteChapter).  Every supabase `update`/`delete` call with `.eq` /
`.in` filter chains is modelled as a conditional update applied to the stored
row addressed by the request id: the patch is applied exactly when the
remaining filters hold for the stored row, and the number of affected rows
(0 or 1) is reported alongside.  Timestamps are abstracted as naturals; each
distinct `new Date().toISOString()` call in a handler is a distinct parameter.
-/

namespace ChurchMagazine

/-- Chapter lifecycle status, the five status strings used across the pages. -/
inductive Status
  | draft
  | submitted
  | editing
  | reviewed
  | confirmed
deriving DecidableEq

/-- User role, from the users table and the session cookie. -/
inductive Role
  | admin
  | editor
  | writer
deriving DecidableEq

/-- Session payload as returned by the auth layer (userId, role, name). -/
structure Session where
  userId : Nat
  role : Role
  name : String
deriving DecidableEq

/-- One row of the chapters table, with the columns the handlers read or
write.  Timestamps are naturals, nullable columns are options. -/
structure Chapter where
  id : Nat
  order_number : Nat
  chapter_code : String
  title : String
  writer_id : Option Nat
  status : Status
  original_body : Option String
  edited_body : Option String
  edited_by : Option Nat
  edited_at : Option Nat
  reviewed_by : Option Nat
  reviewed_at : Option Nat
  confirmed_by : Option Nat
  confirmed_at : Option Nat
  submitted_at : Option Nat
  created_at : Nat
  updated_at : Nat
deriving DecidableEq

/-- One row of the files table (attachment registry). -/
structure FileRow where
  id : Nat
  chapter_id : Nat
  file_url : String
  file_name : String
deriving DecidableEq

/-- What the handler surfaces to the actor: nothing (an early return),
a success toast, or an error toast. -/
inductive Notice
  | silent
  | success (msg : String)
  | failure (msg : String)
deriving DecidableEq

/-- Result of a handler run against a single stored chapter row: the row
afterwards, how many rows the conditional update matched (0 or 1), whether a
store call was issued at all, and what was shown to the actor. -/
structure WriteResult where
  chapter : Chapter
  affected : Nat
  issued : Bool
  notice : Notice
deriving DecidableEq

/-- An early return: no store call, row untouched, nothing shown. -/
def WriteResult.skip (c : Chapter) : WriteResult :=
  { chapter := c, affected := 0, issued := false, notice := Notice.silent }

/-- The blank check the handlers perform before submitting or reviewing,
modelling the JS test of a trimmed body: true exactly when the body has no
non-whitespace character. -/
def isBlank (body : String) : Bool :=
  body.toList.all Char.isWhitespace

/-- Supabase conditional update restricted to the row addressed by the
request id: the patch lands exactly when the remaining filters hold for the
stored row, otherwise the update matches zero rows and the row is unchanged.
A zero-row match is not an error, so the caller sees success either way. -/
def condUpdate (guard : Chapter → Prop) [DecidablePred guard]
    (patch : Chapter → Chapter) (c : Chapter) : Chapter × Nat :=
  if guard c then (patch c, 1) else (c, 0)

/-- Writer page handleSave (current revision).  Reads the local snapshot
status to decide whether to pull a submitted chapter back to draft; the
store filter checks only ownership (`writer_id = session.userId`), never
status.  `localStatus` is the status of the chapter in the local list
(`none` when the id is not in the list). -/
def writerSave (sess : Session) (localStatus : Option Status) (body : String)
    (now : Nat) (stored : Chapter) : WriteResult :=
  let patch := fun c =>
    let base := { c with original_body := some body, updated_at := now }
    if localStatus = some Status.submitted then
      { base with status := Status.draft }
    else base
  let r := condUpdate (fun c => c.writer_id = some sess.userId) patch stored
  { chapter := r.1, affected := r.2, issued := true,
    notice := Notice.success "saved" }

/-- Writer page handleSubmit (current revision).  Returns early when the
body is blank or the actor cancels the dialog; the store filter checks only
ownership, never status, and the patch writes original_body, status,
updated_at and submitted_at from a single timestamp. -/
def writerSubmit (sess : Session) (body : String) (userOk : Bool) (now : Nat)
    (stored : Chapter) : WriteResult :=
  if isBlank body then WriteResult.skip stored
  else if userOk = false then WriteResult.skip stored
  else
    let patch := fun c =>
      { c with original_body := some body, status := Status.submitted,
               updated_at := now, submitted_at := some now }
    let r := condUpdate (fun c => c.writer_id = some sess.userId) patch stored
    { chapter := r.1, affected := r.2, issued := true,
      notice := Notice.success "submitted" }

/-- Writer page handleSave (earlier revision): ownership filter only, patch
writes original_body and updated_at. -/
def writerSaveLegacy (sess : Session) (body : String) (now : Nat)
    (stored : Chapter) : WriteResult :=
  let patch := fun c => { c with original_body := some body, updated_at := now }
  let r := condUpdate (fun c => c.writer_id = some sess.userId) patch stored
  { chapter := r.1, affected := r.2, issued := true,
    notice := Notice.success "saved" }

/-- Writer page handleSubmit (earlier revision): blank check and dialog,
then a conditional update filtered on ownership and `status = draft`; the
patch writes original_body, status and updated_at but no submitted_at. -/
def writerSubmitLegacy (sess : Session) (body : String) (userOk : Bool)
    (now : Nat) (stored : Chapter) : WriteResult :=
  if isBlank body then WriteResult.skip stored
  else if userOk = false then WriteResult.skip stored
  else
    let patch := fun c =>
      { c with original_body := some body, status := Status.submitted,
               updated_at := now }
    let r := condUpdate
      (fun c => c.writer_id = some sess.userId ∧ c.status = Status.draft)
      patch stored
    { chapter := r.1, affected := r.2, issued := true,
      notice := Notice.success "submitted" }

/-- Editor page handleSave (current revision).  Returns early when the local
snapshot is missing or shows confirmed or reviewed; the conditional update is
filtered on `status in [submitted, editing]` and writes edited_body, status,
edited_by, edited_at and updated_at (two separate timestamp reads). -/
def editorSave (sess : Session) (localStatus : Option Status) (body : String)
    (tEdit tUpd : Nat) (stored : Chapter) : WriteResult :=
  match localStatus with
  | none => WriteResult.skip stored
  | some ls =>
    if ls = Status.confirmed ∨ ls = Status.reviewed then WriteResult.skip stored
    else
      let patch := fun c =>
        { c with edited_body := some body, status := Status.editing,
                 edited_by := some sess.userId, edited_at := some tEdit,
                 updated_at := tUpd }
      let r := condUpdate
        (fun c => c.status = Status.submitted ∨ c.status = Status.editing)
        patch stored
      { chapter := r.1, affected := r.2, issued := true,
        notice := Notice.success "saved" }

/-- Editor page handleReview (current revision).  Returns early when the
edited body is blank or the actor cancels; the conditional update is
filtered on `status in [submitted, editing]` and writes edited_body, status,
edited_by, edited_at, reviewed_by, reviewed_at and updated_at, all from one
timestamp read. -/
def editorReview (sess : Session) (body : String) (userOk : Bool) (now : Nat)
    (stored : Chapter) : WriteResult :=
  if isBlank body then WriteResult.skip stored
  else if userOk = false then WriteResult.skip stored
  else
    let patch := fun c =>
      { c with edited_body := some body, status := Status.reviewed,
               edited_by := some sess.userId, edited_at := some now,
               reviewed_by := some sess.userId, reviewed_at := some now,
               updated_at := now }
    let r := condUpdate
      (fun c => c.status = Status.submitted ∨ c.status = Status.editing)
      patch stored
    { chapter := r.1, affected := r.2, issued := true,
      notice := Notice.success "reviewed" }

/-- Editor page handleSave (earlier revision).  Returns early when the local
snapshot is missing or shows confirmed; otherwise identical in shape to the
current editor save, with the same `status in [submitted, editing]` filter. -/
def editorSaveLegacy (sess : Session) (localStatus : Option Status)
    (body : String) (tEdit tUpd : Nat) (stored : Chapter) : WriteResult :=
  match localStatus with
  | none => WriteResult.skip stored
  | some ls =>
    if ls = Status.confirmed then WriteResult.skip stored
    else
      let patch := fun c =>
        { c with edited_body := some body, status := Status.editing,
                 edited_by := some sess.userId, edited_at := some tEdit,
                 updated_at := tUpd }
      let r := condUpdate
        (fun c => c.status = Status.submitted ∨ c.status = Status.editing)
        patch stored
      { chapter := r.1, affected := r.2, issued := true,
        notice := Notice.success "saved" }

/-- Editor page handleConfirm (earlier revision).  An editor-initiated
confirm: early returns when the local snapshot is missing or shows confirmed,
when the edited body is blank, or when the actor cancels; the conditional
update is filtered on `status in [submitted, editing]` and writes
edited_body, status, edited_by, edited_at, confirmed_by, confirmed_at and
updated_at (three separate timestamp reads). -/
def editorConfirmLegacy (sess : Session) (localStatus : Option Status)
    (body : String) (userOk : Bool) (tEdit tConf tUpd : Nat)
    (stored : Chapter) : WriteResult :=
  match localStatus with
  | none => WriteResult.skip stored
  | some ls =>
    if ls = Status.confirmed then WriteResult.skip stored
    else if isBlank body then WriteResult.skip stored
    else if userOk = false then WriteResult.skip stored
    else
      let patch := fun c =>
        { c with edited_body := some body, status := Status.confirmed,
                 edited_by := some sess.userId, edited_at := some tEdit,
                 confirmed_by := some sess.userId, confirmed_at := some tConf,
                 updated_at := tUpd }
      let r := condUpdate
        (fun c => c.status = Status.submitted ∨ c.status = Status.editing)
        patch stored
      { chapter := r.1, affected := r.2, issued := true,
        notice := Notice.success "confirmed" }

/-- Admin page handleConfirm.  The admin page is only reachable with an
admin session (the page redirects otherwise).  After the dialog, the
conditional update is filtered on `status = reviewed` and writes status,
confirmed_by, confirmed_at and updated_at from a single timestamp read. -/
def adminConfirm (sess : Session) (userOk : Bool) (now : Nat)
    (stored : Chapter) : WriteResult :=
  if userOk = false then WriteResult.skip stored
  else
    let patch := fun c =>
      { c with status := Status.confirmed, confirmed_by := some sess.userId,
               confirmed_at := some now, updated_at := now }
    let r := condUpdate (fun c => c.status = Status.reviewed) patch stored
    { chapter := r.1, affected := r.2, issued := true,
      notice := Notice.success "confirmed" }

/-- Admin page handleUnconfirm.  After the dialog, the conditional update is
filtered on `status = confirmed` and writes status back to reviewed, clears
confirmed_by and confirmed_at, and stamps updated_at. -/
def adminUnconfirm (userOk : Bool) (now : Nat) (stored : Chapter) : WriteResult :=
  if userOk = false then WriteResult.skip stored
  else
    let patch := fun c =>
      { c with status := Status.reviewed, confirmed_by := none,
               confirmed_at := none, updated_at := now }
    let r := condUpdate (fun c => c.status = Status.confirmed) patch stored
    { chapter := r.1, affected := r.2, issued := true,
      notice := Notice.success "unconfirmed" }

/-- The whole persistent state the deletion path touches: the chapters table
and the files table. -/
structure Store where
  chapters : List Chapter
  files : List FileRow
deriving DecidableEq

/-- Result of a handler run against the whole store. -/
structure StoreResult where
  store : Store
  affected : Nat
  issued : Bool
  notice : Notice
deriving DecidableEq

/-- Modelled from the spec: the files table is not touched by the delete
handlers themselves, and its foreign-key behaviour (the database schema) is
not part of the sources; per the spec a draft deletion leaves no dangling
file references, so rows of deleted chapters are removed with the chapter. -/
def cascadeFiles (removedIds : List Nat) (files : List FileRow) : List FileRow :=
  files.filter (fun f => decide (f.chapter_id ∉ removedIds))

/-- Admin page and editor page handleDeleteChapter (both are identical).
The handler first rejects from the local snapshot when the status is not
draft (error toast, no store call); otherwise, after the dialog, it issues a
conditional delete filtered on the chapter id and `status = draft`. -/
def handleDeleteChapter (localStatus : Status) (chapterId : Nat)
    (userOk : Bool) (s : Store) : StoreResult :=
  if localStatus ≠ Status.draft then
    { store := s, affected := 0, issued := false,
      notice := Notice.failure "submitted items cannot be deleted" }
  else if userOk = false then
    { store := s, affected := 0, issued := false, notice := Notice.silent }
  else
    let hits := fun c => decide (c.id = chapterId) && decide (c.status = Status.draft)
    let removed := s.chapters.filter hits
    let kept := s.chapters.filter (fun c => !(hits c))
    let files := cascadeFiles (removed.map (fun c => c.id)) s.files
    { store := { chapters := kept, files := files },
      affected := removed.length, issued := true,
      notice := Notice.success "deleted" }

/-- Writer page handleFileUpload: inserts a row into the files table for the
chapter; neither the handler nor the insert checks the chapter status. -/
def writerFileUpload (chapterId : Nat) (fileId : Nat) (url name : String)
    (s : Store) : Store :=
  { s with files := s.files ++ [{ id := fileId, chapter_id := chapterId,
                                  file_url := url, file_name := name }] }

/-- Writer page handleFileDelete: deletes the row by file id; no status
check. -/
def writerFileDelete (fileId : Nat) (s : Store) : Store :=
  { s with files := s.files.filter (fun f => decide (f.id ≠ fileId)) }

/-- One chapter-level transition request, with all actor-side inputs, used
to state invariants over every reachable sequence of operations. -/
inductive Op
  | wSave (sess : Session) (localStatus : Option Status) (body : String) (now : Nat)
  | wSubmit (sess : Session) (body : String) (userOk : Bool) (now : Nat)
  | wSaveLegacy (sess : Session) (body : String) (now : Nat)
  | wSubmitLegacy (sess : Session) (body : String) (userOk : Bool) (now : Nat)
  | eSave (sess : Session) (localStatus : Option Status) (body : String) (tEdit tUpd : Nat)
  | eReview (sess : Session) (body : String) (userOk : Bool) (now : Nat)
  | eSaveLegacy (sess : Session) (localStatus : Option Status) (body : String) (tEdit tUpd : Nat)
  | eConfirmLegacy (sess : Session) (localStatus : Option Status) (body : String)
      (userOk : Bool) (tEdit tConf tUpd : Nat)
  | aConfirm (sess : Session) (userOk : Bool) (now : Nat)
  | aUnconfirm (userOk : Bool) (now : Nat)

/-- Effect of one transition request on the stored chapter row. -/
def applyOp : Op → Chapter → Chapter
  | Op.wSave sess ls body now, c => (writerSave sess ls body now c).chapter
  | Op.wSubmit sess body ok now, c => (writerSubmit sess body ok now c).chapter
  | Op.wSaveLegacy sess body now, c => (writerSaveLegacy sess body now c).chapter
  | Op.wSubmitLegacy sess body ok now, c => (writerSubmitLegacy sess body ok now c).chapter
  | Op.eSave sess ls body t1 t2, c => (editorSave sess ls body t1 t2 c).chapter
  | Op.eReview sess body ok now, c => (editorReview sess body ok now c).chapter
  | Op.eSaveLegacy sess ls body t1 t2, c => (editorSaveLegacy sess ls body t1 t2 c).chapter
  | Op.eConfirmLegacy sess ls body ok t1 t2 t3, c =>
      (editorConfirmLegacy sess ls body ok t1 t2 t3 c).chapter
  | Op.aConfirm sess ok now, c => (adminConfirm sess ok now c).chapter
  | Op.aUnconfirm ok now, c => (adminUnconfirm ok now c).chapter

/-- The writer-page save and submit of the current revision: the two
conditional updates whose filter checks only ownership and never status. -/
def statusUnguardedWriterOp : Op → Prop
  | Op.wSave _ _ _ _ => True
  | Op.wSubmit _ _ _ _ => True
  | _ => False

/-- The provenance-timestamp invariant of the spec: a non-null confirmed_at
forces status confirmed, and a non-null reviewed_at forces status reviewed
or confirmed. -/
def timestampInvariant (c : Chapter) : Prop :=
  (c.confirmed_at ≠ none → c.status = Status.confirmed) ∧
  (c.reviewed_at ≠ none → c.status = Status.reviewed ∨ c.status = Status.confirmed)

instance (c : Chapter) : Decidable (timestampInvariant c) := by
  unfold timestampInvariant
  infer_instance

/-- Concrete writer actor (owner of the fixture chapters). -/
def writerA : Session := { userId := 1, role := Role.writer, name := "writerA" }

/-- Concrete second writer actor, not assigned to any fixture chapter. -/
def writerX : Session := { userId := 9, role := Role.writer, name := "writerX" }

/-- Concrete editor actor. -/
def editorB : Session := { userId := 2, role := Role.editor, name := "editorB" }

/-- Concrete admin actor. -/
def adminC : Session := { userId := 3, role := Role.admin, name := "adminC" }

/-- A freshly created chapter assigned to writer 1, in draft. -/
def draftChapter : Chapter :=
  { id := 10, order_number := 1, chapter_code := "1", title := "news",
    writer_id := some 1, status := Status.draft, original_body := none,
    edited_body := none, edited_by := none, edited_at := none,
    reviewed_by := none, reviewed_at := none, confirmed_by := none,
    confirmed_at := none, submitted_at := none, created_at := 0,
    updated_at := 0 }

/-- The fixture chapter after a full pass of the workflow: submitted at 1,
edited at 2, reviewed at 3 and confirmed at 4. -/
def confirmedChapter : Chapter :=
  { draftChapter with
    status := Status.confirmed,
    original_body := some "hello", edited_body := some "Hello.",
    edited_by := some 2, edited_at := some 3, reviewed_by := some 2,
    reviewed_at := some 3, confirmed_by := some 3, confirmed_at := some 4,
    submitted_at := some 1, updated_at := 4 }

/-- The fixture chapter mid-editing: submitted at 1, being edited at 2. -/
def editingChapter : Chapter :=
  { draftChapter with
    status := Status.editing,
    original_body := some "hello", edited_body := some "Hi",
    edited_by := some 2, edited_at := some 2, submitted_at := some 1,
    updated_at := 2 }

/-- The fixture chapter after review, awaiting the admin confirm. -/
def reviewedChapter : Chapter :=
  { draftChapter with
    status := Status.reviewed,
    original_body := some "hello", edited_body := some "Hello.",
    edited_by := some 2, edited_at := some 3, reviewed_by := some 2,
    reviewed_at := some 3, submitted_at := some 1, updated_at := 3 }

/-- C1: an editor-initiated save or mark-reviewed write carries the guard
set [submitted, editing]; issued while the stored status is outside that set
(in particular confirmed), the conditional update affects zero rows and the
stored row keeps every field unchanged, so the status is never silently
downgraded. -/
theorem editor_guard_rejects_stale_write (sess : Session)
    (localStatus : Option Status) (body : String) (userOk : Bool)
    (t1 t2 : Nat) (stored : Chapter)
    (h1 : stored.status ≠ Status.submitted)
    (h2 : stored.status ≠ Status.editing) :
    ((editorSave sess localStatus body t1 t2 stored).chapter = stored ∧
      (editorSave sess localStatus body t1 t2 stored).affected = 0) ∧
    ((editorReview sess body userOk t1 stored).chapter = stored ∧
      (editorReview sess body userOk t1 stored).affected = 0) ∧
    ((editorSaveLegacy sess localStatus body t1 t2 stored).chapter = stored ∧
      (editorSaveLegacy sess localStatus body t1 t2 stored).affected = 0) := by
  unfold editorSave editorReview editorSaveLegacy condUpdate WriteResult.skip
  rcases localStatus with _ | ls <;> split_ifs <;> simp_all [apply_ite]

/-- Witness for C1 at a concrete input: the guard set rejects a write against
the confirmed fixture chapter. -/
theorem editor_guard_rejects_stale_write_witness :
    (confirmedChapter.status ≠ Status.submitted ∧
     confirmedChapter.status ≠ Status.editing) ∧
    (((editorSave editorB (some Status.editing) "late" 9 9 confirmedChapter).chapter
        = confirmedChapter ∧
      (editorSave editorB (some Status.editing) "late" 9 9 confirmedChapter).affected = 0) ∧
     ((editorReview editorB "late" true 9 confirmedChapter).chapter = confirmedChapter ∧
      (editorReview editorB "late" true 9 confirmedChapter).affected = 0) ∧
     ((editorSaveLegacy editorB (some Status.editing) "late" 9 9 confirmedChapter).chapter
        = confirmedChapter ∧
      (editorSaveLegacy editorB (some Status.editing) "late" 9 9 confirmedChapter).affected = 0)) :=
  ⟨⟨by decide, by decide⟩,
    editor_guard_rejects_stale_write editorB (some Status.editing) "late" true 9 9
      confirmedChapter (by decide) (by decide)⟩

/-- C10: a successful mark-reviewed write records the acting editor as both
reviewer and last editor, and stamps reviewed_at, edited_at and updated_at
with the single timestamp taken at the start of the transition. -/
theorem review_records_reviewer_as_last_editor (sess : Session)
    (body : String) (now : Nat) (stored : Chapter)
    (hb : isBlank body = false)
    (hs : stored.status = Status.submitted ∨ stored.status = Status.editing) :
    (editorReview sess body true now stored).affected = 1 ∧
    (editorReview sess body true now stored).chapter.reviewed_by = some sess.userId ∧
    (editorReview sess body true now stored).chapter.edited_by = some sess.userId ∧
    (editorReview sess body true now stored).chapter.reviewed_at = some now ∧
    (editorReview sess body true now stored).chapter.edited_at = some now ∧
    (editorReview sess body true now stored).chapter.updated_at = now := by
  unfold editorReview condUpdate WriteResult.skip
  simp only [hb]
  rw [if_pos hs]
  simp

/-- Witness for C10 on the concrete editing fixture. -/
theorem review_records_reviewer_as_last_editor_witness :
    (isBlank "Hello." = false ∧
     (editingChapter.status = Status.submitted ∨
      editingChapter.status = Status.editing)) ∧
    ((editorReview editorB "Hello." true 3 editingChapter).affected = 1 ∧
     (editorReview editorB "Hello." true 3 editingChapter).chapter.reviewed_by = some editorB.userId ∧
     (editorReview editorB "Hello." true 3 editingChapter).chapter.edited_by = some editorB.userId ∧
     (editorReview editorB "Hello." true 3 editingChapter).chapter.reviewed_at = some 3 ∧
     (editorReview editorB "Hello." true 3 editingChapter).chapter.edited_at = some 3 ∧
     (editorReview editorB "Hello." true 3 editingChapter).chapter.updated_at = 3) :=
  ⟨⟨by decide, by decide⟩,
    review_records_reviewer_as_last_editor editorB "Hello." 3 editingChapter
      (by decide) (by decide)⟩

/-- C9: a submit or mark-reviewed request whose body is blank returns before
any store call is issued, leaving the stored chapter unchanged; the same
holds for the earlier-revision submit. -/
theorem blank_body_rejected_before_any_write (wsess esess : Session)
    (body : String) (userOk : Bool) (now : Nat) (stored : Chapter)
    (hb : isBlank body = true) :
    (writerSubmit wsess body userOk now stored).issued = false ∧
    (writerSubmit wsess body userOk now stored).chapter = stored ∧
    (editorReview esess body userOk now stored).issued = false ∧
    (editorReview esess body userOk now stored).chapter = stored ∧
    (writerSubmitLegacy wsess body userOk now stored).issued = false ∧
    (writerSubmitLegacy wsess body userOk now stored).chapter = stored := by
  unfold writerSubmit editorReview writerSubmitLegacy WriteResult.skip
  simp [hb]

/-- Witness for C9: a whitespace-only body against the draft fixture. -/
theorem blank_body_rejected_before_any_write_witness :
    (isBlank "  " = true) ∧
    ((writerSubmit writerA "  " true 5 draftChapter).issued = false ∧
     (writerSubmit writerA "  " true 5 draftChapter).chapter = draftChapter ∧
     (editorReview editorB "  " true 5 draftChapter).issued = false ∧
     (editorReview editorB "  " true 5 draftChapter).chapter = draftChapter ∧
     (writerSubmitLegacy writerA "  " true 5 draftChapter).issued = false ∧
     (writerSubmitLegacy writerA "  " true 5 draftChapter).chapter = draftChapter) :=
  ⟨by decide,
    blank_body_rejected_before_any_write writerA editorB "  " true 5 draftChapter
      (by decide)⟩

/-- C6: from a draft chapter, the sequence submit, begin editing, mark
reviewed, confirm, unconfirm ends in status reviewed with confirmed_by and
confirmed_at both cleared. -/
theorem roundtrip_confirm_unconfirm (c : Chapter) (w e a : Session)
    (body ebody : String) (t1 t2 t3 t4 t5 t6 : Nat)
    (hw : c.writer_id = some w.userId) (_hd : c.status = Status.draft)
    (hb : isBlank body = false) (he : isBlank ebody = false) :
    (adminUnconfirm true t6
      (adminConfirm a true t5
        (editorReview e ebody true t4
          (editorSave e (some Status.submitted) ebody t2 t3
            (writerSubmit w body true t1 c).chapter).chapter).chapter).chapter).chapter.status
        = Status.reviewed ∧
    (adminUnconfirm true t6
      (adminConfirm a true t5
        (editorReview e ebody true t4
          (editorSave e (some Status.submitted) ebody t2 t3
            (writerSubmit w body true t1 c).chapter).chapter).chapter).chapter).chapter.confirmed_by
        = none ∧
    (adminUnconfirm true t6
      (adminConfirm a true t5
        (editorReview e ebody true t4
          (editorSave e (some Status.submitted) ebody t2 t3
            (writerSubmit w body true t1 c).chapter).chapter).chapter).chapter).chapter.confirmed_at
        = none := by
  unfold writerSubmit editorSave editorReview adminConfirm adminUnconfirm
    condUpdate WriteResult.skip
  simp [hb, he, hw]

/-- Witness for C6 starting from the concrete draft fixture. -/
theorem roundtrip_confirm_unconfirm_witness :
    (draftChapter.writer_id = some writerA.userId ∧
     draftChapter.status = Status.draft ∧
     isBlank "hello" = false ∧ isBlank "Hello." = false) ∧
    ((adminUnconfirm true 6
      (adminConfirm adminC true 5
        (editorReview editorB "Hello." true 4
          (editorSave editorB (some Status.submitted) "Hello." 2 3
            (writerSubmit writerA "hello" true 1 draftChapter).chapter).chapter).chapter).chapter).chapter.status
        = Status.reviewed ∧
     (adminUnconfirm true 6
      (adminConfirm adminC true 5
        (editorReview editorB "Hello." true 4
          (editorSave editorB (some Status.submitted) "Hello." 2 3
            (writerSubmit writerA "hello" true 1 draftChapter).chapter).chapter).chapter).chapter).chapter.confirmed_by
        = none ∧
     (adminUnconfirm true 6
      (adminConfirm adminC true 5
        (editorReview editorB "Hello." true 4
          (editorSave editorB (some Status.submitted) "Hello." 2 3
            (writerSubmit writerA "hello" true 1 draftChapter).chapter).chapter).chapter).chapter).chapter.confirmed_at
        = none) :=
  ⟨⟨by decide, by decide, by decide, by decide⟩,
    roundtrip_confirm_unconfirm draftChapter writerA editorB adminC
      "hello" "Hello." 1 2 3 4 5 6 (by decide) (by decide) (by decide) (by decide)⟩

/-- C3 counterexample: the earlier-revision editor page ships a confirm
transition issued by an editor session that lands on a chapter whose stored
status is editing (not reviewed) and also writes the edited fields, so
confirm is neither admin-only nor reviewed-only. -/
theorem editor_confirm_from_editing :
    editorB.role = Role.editor ∧
    editingChapter.status ≠ Status.reviewed ∧
    (editorConfirmLegacy editorB (some Status.editing) "Hi." true 5 5 5
        editingChapter).affected = 1 ∧
    (editorConfirmLegacy editorB (some Status.editing) "Hi." true 5 5 5
        editingChapter).chapter.status = Status.confirmed ∧
    (editorConfirmLegacy editorB (some Status.editing) "Hi." true 5 5 5
        editingChapter).chapter.confirmed_by = some editorB.userId := by
  decide

/-- C3 (amended): the admin-page confirm applies exactly when the stored
status is reviewed and writes exactly status, confirmed_by, confirmed_at and
updated_at; but the earlier-revision editor page also ships a confirm,
issued by an editor, that applies when the stored status is submitted or
editing and additionally writes edited_body, edited_by and edited_at. -/
theorem confirm_transition_contract (a e : Session) (ls : Status)
    (body : String) (t t1 t2 t3 : Nat) (stored : Chapter)
    (hl : ls ≠ Status.confirmed) (hb : isBlank body = false) :
    (stored.status = Status.reviewed →
      (adminConfirm a true t stored).chapter =
        { stored with
          status := Status.confirmed, confirmed_by := some a.userId,
          confirmed_at := some t, updated_at := t }) ∧
    (stored.status ≠ Status.reviewed →
      (adminConfirm a true t stored).chapter = stored ∧
      (adminConfirm a true t stored).affected = 0) ∧
    ((stored.status = Status.submitted ∨ stored.status = Status.editing) →
      (editorConfirmLegacy e (some ls) body true t1 t2 t3 stored).chapter =
        { stored with
          edited_body := some body, status := Status.confirmed,
          edited_by := some e.userId, edited_at := some t1,
          confirmed_by := some e.userId, confirmed_at := some t2,
          updated_at := t3 }) := by
  refine ⟨?_, ?_, ?_⟩
  · intro hs
    unfold adminConfirm condUpdate
    simp [hs]
  · intro hs
    unfold adminConfirm condUpdate WriteResult.skip
    simp [hs]
  · intro hs
    unfold editorConfirmLegacy condUpdate WriteResult.skip
    rcases hs with hs | hs <;> simp [hl, hb, hs]

/-- Witness for the amended C3 on the reviewed fixture. -/
theorem confirm_transition_contract_witness :
    (Status.editing ≠ Status.confirmed ∧ isBlank "Hi." = false) ∧
    ((reviewedChapter.status = Status.reviewed →
      (adminConfirm adminC true 4 reviewedChapter).chapter =
        { reviewedChapter with
          status := Status.confirmed, confirmed_by := some adminC.userId,
          confirmed_at := some 4, updated_at := 4 }) ∧
     (reviewedChapter.status ≠ Status.reviewed →
      (adminConfirm adminC true 4 reviewedChapter).chapter = reviewedChapter ∧
      (adminConfirm adminC true 4 reviewedChapter).affected = 0) ∧
     ((reviewedChapter.status = Status.submitted ∨
       reviewedChapter.status = Status.editing) →
      (editorConfirmLegacy editorB (some Status.editing) "Hi." true 5 6 7
          reviewedChapter).chapter =
        { reviewedChapter with
          edited_body := some "Hi.", status := Status.confirmed,
          edited_by := some editorB.userId, edited_at := some 5,
          confirmed_by := some editorB.userId, confirmed_at := some 6,
          updated_at := 7 })) :=
  ⟨⟨by decide, by decide⟩,
    confirm_transition_contract adminC editorB Status.editing "Hi." 4 5 6 7
      reviewedChapter (by decide) (by decide)⟩

/-- C4 counterexample: a submit by the owning writer against a chapter whose
stored status is confirmed is not a no-op: the store filter checks only
ownership, so the write lands and resets the status to submitted. -/
theorem submit_lands_on_confirmed :
    confirmedChapter.status = Status.confirmed ∧
    (writerSubmit writerA "revised" true 9 confirmedChapter).affected = 1 ∧
    (writerSubmit writerA "revised" true 9 confirmedChapter).chapter.status
      = Status.submitted ∧
    (writerSubmit writerA "revised" true 9 confirmedChapter).chapter
      ≠ confirmedChapter := by
  decide

/-- C4 (amended): the current-revision submit is guarded by ownership only:
it applies whenever the stored writer_id matches the actor, from any stored
status, and writes exactly original_body, status, updated_at and
submitted_at; against a chapter owned by someone else it is a no-op.  The
earlier-revision submit applies only from draft and does not write
submitted_at. -/
theorem submit_guarded_by_ownership_only (sess : Session) (body : String)
    (now : Nat) (stored : Chapter) (hb : isBlank body = false) :
    (stored.writer_id = some sess.userId →
      (writerSubmit sess body true now stored).chapter =
        { stored with
          original_body := some body, status := Status.submitted,
          updated_at := now, submitted_at := some now }) ∧
    (stored.writer_id ≠ some sess.userId →
      (writerSubmit sess body true now stored).chapter = stored ∧
      (writerSubmit sess body true now stored).affected = 0) ∧
    (stored.writer_id = some sess.userId ∧ stored.status = Status.draft →
      (writerSubmitLegacy sess body true now stored).chapter =
        { stored with
          original_body := some body, status := Status.submitted,
          updated_at := now }) ∧
    (¬ (stored.writer_id = some sess.userId ∧ stored.status = Status.draft) →
      (writerSubmitLegacy sess body true now stored).chapter = stored ∧
      (writerSubmitLegacy sess body true now stored).affected = 0) := by
  unfold writerSubmit writerSubmitLegacy condUpdate WriteResult.skip
  refine ⟨?_, ?_, ?_, ?_⟩ <;> intro hs <;> simp [hb, hs]

/-- Witness for the amended C4 on the confirmed fixture. -/
theorem submit_guarded_by_ownership_only_witness :
    (isBlank "revised" = false) ∧
    ((confirmedChapter.writer_id = some writerA.userId →
      (writerSubmit writerA "revised" true 9 confirmedChapter).chapter =
        { confirmedChapter with
          original_body := some "revised", status := Status.submitted,
          updated_at := 9, submitted_at := some 9 }) ∧
     (confirmedChapter.writer_id ≠ some writerA.userId →
      (writerSubmit writerA "revised" true 9 confirmedChapter).chapter
        = confirmedChapter ∧
      (writerSubmit writerA "revised" true 9 confirmedChapter).affected = 0) ∧
     (confirmedChapter.writer_id = some writerA.userId ∧
        confirmedChapter.status = Status.draft →
      (writerSubmitLegacy writerA "revised" true 9 confirmedChapter).chapter =
        { confirmedChapter with
          original_body := some "revised", status := Status.submitted,
          updated_at := 9 }) ∧
     (¬ (confirmedChapter.writer_id = some writerA.userId ∧
          confirmedChapter.status = Status.draft) →
      (writerSubmitLegacy writerA "revised" true 9 confirmedChapter).chapter
        = confirmedChapter ∧
      (writerSubmitLegacy writerA "revised" true 9 confirmedChapter).affected = 0)) :=
  ⟨by decide,
    submit_guarded_by_ownership_only writerA "revised" 9 confirmedChapter
      (by decide)⟩

/-- C7 counterexample: a save by a writer who does not own the chapter
matches zero rows, but because a zero-row conditional update is not an
error, the handler reports success, not an authorization failure. -/
theorem nonowner_save_reports_success :
    draftChapter.writer_id ≠ some writerX.userId ∧
    (writerSave writerX (some Status.draft) "prank" 5 draftChapter).chapter
      = draftChapter ∧
    (writerSave writerX (some Status.draft) "prank" 5 draftChapter).notice
      = Notice.success "saved" := by
  decide

/-- C7 (amended): a save or submit by a writer whose identity differs from
the assigned writer_id leaves the stored chapter unchanged (the conditional
update matches zero rows), but the attempt is reported to the actor as
success, not as an authorization failure. -/
theorem nonowner_write_is_noop_but_reports_success (sess : Session)
    (ls : Option Status) (body : String) (now : Nat) (stored : Chapter)
    (hno : stored.writer_id ≠ some sess.userId) (hb : isBlank body = false) :
    ((writerSave sess ls body now stored).chapter = stored ∧
     (writerSave sess ls body now stored).affected = 0 ∧
     (writerSave sess ls body now stored).notice = Notice.success "saved") ∧
    ((writerSubmit sess body true now stored).chapter = stored ∧
     (writerSubmit sess body true now stored).affected = 0 ∧
     (writerSubmit sess body true now stored).notice = Notice.success "submitted") := by
  unfold writerSave writerSubmit condUpdate WriteResult.skip
  simp [hb, hno]

/-- Witness for the amended C7: writer 9 against the chapter of writer 1. -/
theorem nonowner_write_is_noop_but_reports_success_witness :
    (draftChapter.writer_id ≠ some writerX.userId ∧ isBlank "prank" = false) ∧
    (((writerSave writerX (some Status.draft) "prank" 5 draftChapter).chapter
        = draftChapter ∧
      (writerSave writerX (some Status.draft) "prank" 5 draftChapter).affected = 0 ∧
      (writerSave writerX (some Status.draft) "prank" 5 draftChapter).notice
        = Notice.success "saved") ∧
     ((writerSubmit writerX "prank" true 5 draftChapter).chapter = draftChapter ∧
      (writerSubmit writerX "prank" true 5 draftChapter).affected = 0 ∧
      (writerSubmit writerX "prank" true 5 draftChapter).notice
        = Notice.success "submitted")) :=
  ⟨⟨by decide, by decide⟩,
    nonowner_write_is_noop_but_reports_success writerX (some Status.draft)
      "prank" 5 draftChapter (by decide) (by decide)⟩

/-- C2 counterexample: with a stale local snapshot still showing submitted,
the save of the owning writer lands on a chapter whose stored status is
confirmed — the store filter checks only ownership — overwriting
original_body and even pulling the status back to draft, so a confirmed
chapter is not immutable. -/
theorem confirmed_chapter_mutated_by_writer_save :
    confirmedChapter.status = Status.confirmed ∧
    (writerSave writerA (some Status.submitted) "rewrite" 9 confirmedChapter).affected = 1 ∧
    (writerSave writerA (some Status.submitted) "rewrite" 9 confirmedChapter).chapter.original_body
      = some "rewrite" ∧
    (writerSave writerA (some Status.submitted) "rewrite" 9 confirmedChapter).chapter.status
      = Status.draft := by
  decide

/-- C2 (amended): a confirmed chapter is immutable against every
status-guarded write: the editor saves, the mark-reviewed write, both
confirms and the delete all leave it untouched, and admin unconfirm is the
only guarded transition that applies, returning it to reviewed with the
confirmed fields cleared.  It is not immutable against the
ownership-guarded writer writes or the file registry: the owning writer
can still submit it, and file rows referencing it can still be added. -/
theorem confirmed_immutable_only_against_guarded_writes (e a wsess : Session)
    (ls : Option Status) (body : String) (userOk : Bool) (t t1 t2 t3 : Nat)
    (stored : Chapter) (s : Store) (cid fid : Nat) (url nm : String)
    (hst : stored.status = Status.confirmed)
    (hown : stored.writer_id = some wsess.userId)
    (hb : isBlank body = false) :
    ((editorSave e ls body t1 t2 stored).chapter = stored ∧
     (editorReview e body userOk t stored).chapter = stored ∧
     (editorSaveLegacy e ls body t1 t2 stored).chapter = stored ∧
     (editorConfirmLegacy e ls body userOk t1 t2 t3 stored).chapter = stored ∧
     (adminConfirm a userOk t stored).chapter = stored) ∧
    (handleDeleteChapter stored.status cid userOk s).store = s ∧
    (adminUnconfirm true t stored).chapter =
      { stored with
        status := Status.reviewed, confirmed_by := none,
        confirmed_at := none, updated_at := t } ∧
    (writerSubmit wsess body true t stored).chapter.status = Status.submitted ∧
    (writerFileUpload cid fid url nm s).files =
      s.files ++ [{ id := fid, chapter_id := cid, file_url := url, file_name := nm }] := by
  refine ⟨⟨?_, ?_, ?_, ?_, ?_⟩, ?_, ?_, ?_, ?_⟩
  · unfold editorSave condUpdate WriteResult.skip
    rcases ls with _ | l <;> split_ifs <;> simp_all [apply_ite]
  · unfold editorReview condUpdate WriteResult.skip
    split_ifs <;> simp_all
  · unfold editorSaveLegacy condUpdate WriteResult.skip
    rcases ls with _ | l <;> split_ifs <;> simp_all [apply_ite]
  · unfold editorConfirmLegacy condUpdate WriteResult.skip
    rcases ls with _ | l <;> split_ifs <;> simp_all [apply_ite]
  · unfold adminConfirm condUpdate WriteResult.skip
    split_ifs <;> simp_all
  · unfold handleDeleteChapter
    rw [hst]
    simp
  · unfold adminUnconfirm condUpdate
    simp [hst]
  · unfold writerSubmit condUpdate WriteResult.skip
    simp [hb, hown]
  · unfold writerFileUpload
    simp

/-- Witness for the amended C2 on the confirmed fixture. -/
theorem confirmed_immutable_only_against_guarded_writes_witness :
    (confirmedChapter.status = Status.confirmed ∧
     confirmedChapter.writer_id = some writerA.userId ∧
     isBlank "late" = false) ∧
    (((editorSave editorB (some Status.editing) "late" 8 8 confirmedChapter).chapter
        = confirmedChapter ∧
      (editorReview editorB "late" true 8 confirmedChapter).chapter = confirmedChapter ∧
      (editorSaveLegacy editorB (some Status.editing) "late" 8 8 confirmedChapter).chapter
        = confirmedChapter ∧
      (editorConfirmLegacy editorB (some Status.editing) "late" true 8 8 8
          confirmedChapter).chapter = confirmedChapter ∧
      (adminConfirm adminC true 8 confirmedChapter).chapter = confirmedChapter) ∧
     (handleDeleteChapter confirmedChapter.status 10 true
        { chapters := [confirmedChapter], files := [] }).store =
       { chapters := [confirmedChapter], files := [] } ∧
     (adminUnconfirm true 8 confirmedChapter).chapter =
       { confirmedChapter with
         status := Status.reviewed, confirmed_by := none,
         confirmed_at := none, updated_at := 8 } ∧
     (writerSubmit writerA "late" true 8 confirmedChapter).chapter.status
        = Status.submitted ∧
     (writerFileUpload 10 99 "u" "n" { chapters := [confirmedChapter], files := [] }).files =
       ([] : List FileRow) ++ [{ id := 99, chapter_id := 10, file_url := "u", file_name := "n" }]) :=
  ⟨⟨by decide, by decide, by decide⟩,
    confirmed_immutable_only_against_guarded_writes editorB adminC writerA
      (some Status.editing) "late" true 8 8 8 8 confirmedChapter
      { chapters := [confirmedChapter], files := [] } 10 99 "u" "n"
      (by decide) (by decide) (by decide)⟩

/-- In a state satisfying the timestamp invariant whose status passes the
editing guard (submitted or editing), both provenance timestamps are still
null. -/
theorem guard_state_timestamps_null (c : Chapter) (h : timestampInvariant c)
    (hg : c.status = Status.submitted ∨ c.status = Status.editing) :
    c.confirmed_at = none ∧ c.reviewed_at = none := by
  obtain ⟨h1, h2⟩ := h
  constructor
  · by_contra hc
    rcases hg with hg | hg <;> simp [h1 hc] at hg
  · by_contra hc
    rcases h2 hc with hr | hr <;> rcases hg with hg | hg <;> simp [hr] at hg

/-- The current-revision writer save keeps the timestamp invariant whenever
it is issued while the stored status is draft or submitted. -/
theorem writerSave_keeps_invariant (sess : Session) (ls : Option Status)
    (body : String) (now : Nat) (c : Chapter) (h : timestampInvariant c)
    (hst : c.status = Status.draft ∨ c.status = Status.submitted) :
    timestampInvariant (writerSave sess ls body now c).chapter := by
  obtain ⟨h1, h2⟩ := h
  unfold writerSave condUpdate
  rcases hst with hst | hst <;> split_ifs <;> simp_all [timestampInvariant]

/-- The current-revision writer submit keeps the timestamp invariant
whenever it is issued while the stored status is draft or submitted. -/
theorem writerSubmit_keeps_invariant (sess : Session) (body : String)
    (userOk : Bool) (now : Nat) (c : Chapter) (h : timestampInvariant c)
    (hst : c.status = Status.draft ∨ c.status = Status.submitted) :
    timestampInvariant (writerSubmit sess body userOk now c).chapter := by
  obtain ⟨h1, h2⟩ := h
  unfold writerSubmit condUpdate WriteResult.skip
  rcases hst with hst | hst <;> split_ifs <;> simp_all [timestampInvariant]

/-- The earlier-revision writer save never changes status, confirmed_at or
reviewed_at, so it keeps the timestamp invariant unconditionally. -/
theorem writerSaveLegacy_keeps_invariant (sess : Session) (body : String)
    (now : Nat) (c : Chapter) (h : timestampInvariant c) :
    timestampInvariant (writerSaveLegacy sess body now c).chapter := by
  obtain ⟨h1, h2⟩ := h
  unfold writerSaveLegacy condUpdate
  split_ifs <;> simp_all [timestampInvariant]

/-- The earlier-revision writer submit is guarded on draft, so it keeps the
timestamp invariant unconditionally. -/
theorem writerSubmitLegacy_keeps_invariant (sess : Session) (body : String)
    (userOk : Bool) (now : Nat) (c : Chapter) (h : timestampInvariant c) :
    timestampInvariant (writerSubmitLegacy sess body userOk now c).chapter := by
  obtain ⟨h1, h2⟩ := h
  unfold writerSubmitLegacy condUpdate WriteResult.skip
  split_ifs <;> simp_all [timestampInvariant]

/-- The editor save (current revision) is guarded on submitted or editing,
so it keeps the timestamp invariant unconditionally. -/
theorem editorSave_keeps_invariant (sess : Session) (ls : Option Status)
    (body : String) (t1 t2 : Nat) (c : Chapter) (h : timestampInvariant c) :
    timestampInvariant (editorSave sess ls body t1 t2 c).chapter := by
  unfold editorSave condUpdate WriteResult.skip
  rcases ls with _ | l
  · exact h
  · dsimp only
    split_ifs with hl hg
    · exact h
    · obtain ⟨hca, hra⟩ := guard_state_timestamps_null c h hg
      simp_all [timestampInvariant]
    · exact h

/-- The mark-reviewed write is guarded on submitted or editing, so it keeps
the timestamp invariant unconditionally. -/
theorem editorReview_keeps_invariant (sess : Session) (body : String)
    (userOk : Bool) (now : Nat) (c : Chapter) (h : timestampInvariant c) :
    timestampInvariant (editorReview sess body userOk now c).chapter := by
  unfold editorReview condUpdate WriteResult.skip
  split_ifs with hbl hok hg
  · exact h
  · exact h
  · obtain ⟨hca, hra⟩ := guard_state_timestamps_null c h hg
    simp_all [timestampInvariant]
  · exact h

/-- The editor save (earlier revision) is guarded on submitted or editing,
so it keeps the timestamp invariant unconditionally. -/
theorem editorSaveLegacy_keeps_invariant (sess : Session) (ls : Option Status)
    (body : String) (t1 t2 : Nat) (c : Chapter) (h : timestampInvariant c) :
    timestampInvariant (editorSaveLegacy sess ls body t1 t2 c).chapter := by
  unfold editorSaveLegacy condUpdate WriteResult.skip
  rcases ls with _ | l
  · exact h
  · dsimp only
    split_ifs with hl hg
    · exact h
    · obtain ⟨hca, hra⟩ := guard_state_timestamps_null c h hg
      simp_all [timestampInvariant]
    · exact h

/-- The editor confirm (earlier revision) moves the chapter to confirmed, so
both implications of the invariant hold afterwards. -/
theorem editorConfirmLegacy_keeps_invariant (sess : Session)
    (ls : Option Status) (body : String) (userOk : Bool) (t1 t2 t3 : Nat)
    (c : Chapter) (h : timestampInvariant c) :
    timestampInvariant (editorConfirmLegacy sess ls body userOk t1 t2 t3 c).chapter := by
  unfold editorConfirmLegacy condUpdate WriteResult.skip
  rcases ls with _ | l
  · exact h
  · dsimp only
    split_ifs with hl hbl hok hg
    · exact h
    · exact h
    · exact h
    · obtain ⟨hca, hra⟩ := guard_state_timestamps_null c h hg
      simp_all [timestampInvariant]
    · exact h

/-- The admin confirm moves the chapter to confirmed, so it keeps the
timestamp invariant unconditionally. -/
theorem adminConfirm_keeps_invariant (sess : Session) (userOk : Bool)
    (now : Nat) (c : Chapter) (h : timestampInvariant c) :
    timestampInvariant (adminConfirm sess userOk now c).chapter := by
  obtain ⟨h1, h2⟩ := h
  unfold adminConfirm condUpdate WriteResult.skip
  split_ifs <;> simp_all [timestampInvariant]

/-- The admin unconfirm clears confirmed_at and moves the chapter to
reviewed, so it keeps the timestamp invariant unconditionally. -/
theorem adminUnconfirm_keeps_invariant (userOk : Bool) (now : Nat)
    (c : Chapter) (h : timestampInvariant c) :
    timestampInvariant (adminUnconfirm userOk now c).chapter := by
  obtain ⟨h1, h2⟩ := h
  unfold adminUnconfirm condUpdate WriteResult.skip
  split_ifs <;> simp_all [timestampInvariant]

/-- C5 counterexample: the full reachable run submit, editor save, mark
reviewed, admin confirm reaches a confirmed chapter satisfying the
invariant, after which a second submit by the owning writer — whose filter
ignores status — leaves confirmed_at non-null with status submitted,
violating the invariant. -/
theorem invariant_broken_by_unguarded_submit :
    timestampInvariant
      (adminConfirm adminC true 4
        (editorReview editorB "Hello." true 3
          (editorSave editorB (some Status.submitted) "Hello." 2 2
            (writerSubmit writerA "hello" true 1 draftChapter).chapter).chapter).chapter).chapter ∧
    ¬ timestampInvariant
      (writerSubmit writerA "revised" true 5
        (adminConfirm adminC true 4
          (editorReview editorB "Hello." true 3
            (editorSave editorB (some Status.submitted) "Hello." 2 2
              (writerSubmit writerA "hello" true 1 draftChapter).chapter).chapter).chapter).chapter).chapter := by
  decide

/-- C5 (amended): every transition of the system keeps the timestamp
invariant, provided the two status-unguarded writer writes (the
current-revision save and submit) are only issued while the stored status
is draft or submitted; without that proviso a submit against a confirmed
chapter leaves confirmed_at non-null with status submitted. -/
theorem timestamp_invariant_preserved (op : Op) (c : Chapter)
    (h : timestampInvariant c)
    (hw : statusUnguardedWriterOp op →
      c.status = Status.draft ∨ c.status = Status.submitted) :
    timestampInvariant (applyOp op c) := by
  cases op with
  | wSave sess ls body now =>
      exact writerSave_keeps_invariant sess ls body now c h (hw trivial)
  | wSubmit sess body ok now =>
      exact writerSubmit_keeps_invariant sess body ok now c h (hw trivial)
  | wSaveLegacy sess body now =>
      exact writerSaveLegacy_keeps_invariant sess body now c h
  | wSubmitLegacy sess body ok now =>
      exact writerSubmitLegacy_keeps_invariant sess body ok now c h
  | eSave sess ls body t1 t2 =>
      exact editorSave_keeps_invariant sess ls body t1 t2 c h
  | eReview sess body ok now =>
      exact editorReview_keeps_invariant sess body ok now c h
  | eSaveLegacy sess ls body t1 t2 =>
      exact editorSaveLegacy_keeps_invariant sess ls body t1 t2 c h
  | eConfirmLegacy sess ls body ok t1 t2 t3 =>
      exact editorConfirmLegacy_keeps_invariant sess ls body ok t1 t2 t3 c h
  | aConfirm sess ok now =>
      exact adminConfirm_keeps_invariant sess ok now c h
  | aUnconfirm ok now =>
      exact adminUnconfirm_keeps_invariant ok now c h

/-- Witness for the amended C5: the mark-reviewed transition on the editing
fixture keeps the invariant. -/
theorem timestamp_invariant_preserved_witness :
    (timestampInvariant editingChapter) ∧
    timestampInvariant
      (applyOp (Op.eReview editorB "Hello." true 3) editingChapter) :=
  ⟨by decide,
    timestamp_invariant_preserved (Op.eReview editorB "Hello." true 3)
      editingChapter (by decide) (fun hf => absurd hf (by simp [statusUnguardedWriterOp]))⟩

/-- C8: deleting a chapter whose stored status is submitted fails — the
handler rejects from the snapshot before issuing any store call — leaving
the chapters and files tables untouched; deleting a draft chapter succeeds,
removes it, and (with the spec-modelled cascade) leaves no file row
referencing its id.  The uniqueness hypothesis says the target id denotes
one chapter. -/
theorem delete_draft_only (s : Store) (c : Chapter) (userOk : Bool)
    (hmem : c ∈ s.chapters)
    (huniq : ∀ c2 ∈ s.chapters, c2.id = c.id → c2 = c) :
    (c.status = Status.submitted →
      (handleDeleteChapter c.status c.id userOk s).store = s ∧
      (handleDeleteChapter c.status c.id userOk s).issued = false ∧
      (handleDeleteChapter c.status c.id userOk s).notice =
        Notice.failure "submitted items cannot be deleted") ∧
    (c.status = Status.draft →
      (handleDeleteChapter c.status c.id true s).notice = Notice.success "deleted" ∧
      (∀ c2 ∈ (handleDeleteChapter c.status c.id true s).store.chapters,
        c2.id ≠ c.id) ∧
      (∀ f ∈ (handleDeleteChapter c.status c.id true s).store.files,
        f.chapter_id ≠ c.id)) := by
  constructor
  · intro hst
    unfold handleDeleteChapter
    rw [hst]
    simp
  · intro hst
    unfold handleDeleteChapter
    rw [hst]
    simp only [ne_eq, not_true_eq_false, if_false, Bool.true_eq_false,
      reduceCtorEq]
    refine ⟨by trivial, ?_, ?_⟩
    · intro c2 h2 heq
      have h2m := List.mem_filter.mp h2
      have hc2 : c2 = c := huniq c2 h2m.1 heq
      rw [hc2] at h2m
      simp [hst] at h2m
    · intro f hf
      have hfm := List.mem_filter.mp hf
      have hcid : c.id ∈ (s.chapters.filter
          (fun c2 => decide (c2.id = c.id) && decide (c2.status = Status.draft))).map
          (fun c2 => c2.id) := by
        refine List.mem_map.mpr ⟨c, ?_, rfl⟩
        refine List.mem_filter.mpr ⟨hmem, ?_⟩
        simp [hst]
      intro hfe
      have := of_decide_eq_true hfm.2
      unfold cascadeFiles at hf
      have hfm2 := List.mem_filter.mp hf
      have hnotin := of_decide_eq_true hfm2.2
      exact hnotin (hfe ▸ hcid)

/-- Concrete store for the deletion witness: the draft fixture chapter with
one attached file. -/
def draftStore : Store :=
  { chapters := [draftChapter],
    files := [{ id := 1, chapter_id := 10, file_url := "u", file_name := "n" }] }

/-- Witness for C8 on the concrete one-chapter store. -/
theorem delete_draft_only_witness :
    (draftChapter ∈ draftStore.chapters ∧
     (∀ c2 ∈ draftStore.chapters, c2.id = draftChapter.id → c2 = draftChapter)) ∧
    ((draftChapter.status = Status.submitted →
      (handleDeleteChapter draftChapter.status draftChapter.id true draftStore).store
        = draftStore ∧
      (handleDeleteChapter draftChapter.status draftChapter.id true draftStore).issued
        = false ∧
      (handleDeleteChapter draftChapter.status draftChapter.id true draftStore).notice
        = Notice.failure "submitted items cannot be deleted") ∧
     (draftChapter.status = Status.draft →
      (handleDeleteChapter draftChapter.status draftChapter.id true draftStore).notice
        = Notice.success "deleted" ∧
      (∀ c2 ∈ (handleDeleteChapter draftChapter.status draftChapter.id true
          draftStore).store.chapters, c2.id ≠ draftChapter.id) ∧
      (∀ f ∈ (handleDeleteChapter draftChapter.status draftChapter.id true
          draftStore).store.files, f.chapter_id ≠ draftChapter.id))) :=
  ⟨⟨by decide, by decide⟩,
    delete_draft_only draftStore draftChapter true (by decide) (by decide)⟩

end ChurchMagazine
